import Mathlib

/-!
Verification of the form-validation component in src/src/routes/index.tsx.

The component is a single form with two text fields, name and year, a
was-submitted latch stored as the data-was-submitted attribute on the form
element, two onInput handlers that set each field's custom validation
message, and an onSubmit handler that latches the flag, re-dispatches an
input event to every field, checks overall validity, and on success logs
the record built from the raw field values with year cast via Number.

We embed the handlers as pure functions over an explicit FormState.  The
JavaScript string primitives the handlers use, String.prototype.trim, the
regex literals, and the Number conversion, are modelled over Lean strings
by code point, following the ECMAScript semantics:
  - trim removes WhiteSpace and LineTerminator code points from both ends;
  - the dot in a regex matches any character except a LineTerminator
    (U+000A, U+000D, U+2028, U+2029), and without the m flag the anchors
    match only the ends of the whole string;
  - Number(string) trims, then parses the StringNumericLiteral grammar
    (empty means 0, optional sign with Infinity or a decimal literal with
    optional fraction and exponent, or an unsigned 0x / 0o / 0b literal),
    yielding NaN on any other input.  We keep exact rational values
    instead of IEEE doubles; no claim depends on float rounding.
Finite values are carried as unreduced fractions with a positive
denominator and compared by cross multiplication, which agrees with the
numeric order whenever denominators are positive, as they are for every
fraction the parser builds.
-/

/-- Whitespace per the ECMAScript trim operation: the WhiteSpace code
points (TAB, VT, FF, SP, NBSP, ZWNBSP and the Unicode Zs spaces) together
with the LineTerminator code points (LF, CR, LS, PS). -/
def isJsWhitespaceChar (c : Char) : Bool :=
  c.toNat = 9 || c.toNat = 10 || c.toNat = 11 || c.toNat = 12 ||
  c.toNat = 13 || c.toNat = 32 || c.toNat = 0xA0 || c.toNat = 0x1680 ||
  (0x2000 ≤ c.toNat && c.toNat ≤ 0x200A) ||
  c.toNat = 0x2028 || c.toNat = 0x2029 || c.toNat = 0x202F ||
  c.toNat = 0x205F || c.toNat = 0x3000 || c.toNat = 0xFEFF

/-- Models JavaScript String.prototype.trim: drop leading and trailing
JS whitespace. -/
def jsTrim (s : String) : String :=
  ⟨((s.data.dropWhile isJsWhitespaceChar).reverse.dropWhile
      isJsWhitespaceChar).reverse⟩

/-- ASCII digit, the character class d in the year regex. -/
def isAsciiDigit (c : Char) : Bool :=
  48 ≤ c.toNat && c.toNat ≤ 57

/-- Models the year regex (anchored one-or-more ASCII digits) from
src/src/routes/index.tsx line 72: it matches exactly the nonempty strings
made of ASCII digits. -/
def matchDigits (s : String) : Bool :=
  !s.data.isEmpty && s.data.all isAsciiDigit

/-- ECMAScript LineTerminator code points, which the regex dot never
matches: LF, CR, LS, PS. -/
def isLineTerminatorChar (c : Char) : Bool :=
  c.toNat = 10 || c.toNat = 13 || c.toNat = 0x2028 || c.toNat = 0x2029

/-- Models the name regex from src/src/routes/index.tsx line 36, anchored
uppercase ASCII letter followed by dot-star: it matches exactly the
strings whose first character is an uppercase ASCII letter (A-Z) and
whose remaining characters contain no LineTerminator, since the dot
cannot match a LineTerminator and the end anchor without the m flag only
matches at the end of the whole string. -/
def matchUpperStart (s : String) : Bool :=
  match s.data with
  | [] => false
  | c :: rest =>
    (65 ≤ c.toNat && c.toNat ≤ 90) && rest.all (fun d => !isLineTerminatorChar d)

/-- Exact value of a finite Number result, as an unreduced fraction.
Every fraction the parser builds has a positive denominator (a product
of powers of ten), so comparing by cross multiplication agrees with the
numeric order. -/
structure Frac where
  num : Int
  den : Nat
deriving DecidableEq, Repr

/-- The fraction denoting a natural number. -/
def Frac.ofNat (n : Nat) : Frac := ⟨(n : Int), 1⟩

/-- Sum of two fractions, without reduction. -/
def Frac.add (a b : Frac) : Frac :=
  ⟨a.num * (b.den : Int) + b.num * (a.den : Int), a.den * b.den⟩

/-- Product of two fractions, without reduction. -/
def Frac.mul (a b : Frac) : Frac :=
  ⟨a.num * b.num, a.den * b.den⟩

/-- Negation of a fraction. -/
def Frac.neg (a : Frac) : Frac := ⟨-a.num, a.den⟩

/-- Strict order on fractions by cross multiplication, which matches
the numeric order when both denominators are positive. -/
def Frac.blt (a b : Frac) : Bool :=
  decide (a.num * (b.den : Int) < b.num * (a.den : Int))

/-- Result of the JavaScript Number conversion: NaN, an infinity, or a
finite value, kept as an exact fraction. -/
inductive JsNum where
  | nan : JsNum
  | posInf : JsNum
  | negInf : JsNum
  | val : Frac → JsNum
deriving DecidableEq, Repr

/-- Models the JavaScript isNaN test on a Number result. -/
def JsNum.isNaN : JsNum → Bool
  | .nan => true
  | _ => false

/-- Models the JavaScript comparison of a Number result with a finite
integer constant: NaN compares false, minus infinity is below
everything. -/
def JsNum.ltInt : JsNum → Int → Bool
  | .nan, _ => false
  | .posInf, _ => false
  | .negInf, _ => true
  | .val q, c => q.blt ⟨c, 1⟩

/-- Value of a list of ASCII decimal digits read left to right. -/
def decDigitsVal (cs : List Char) : Nat :=
  cs.foldl (fun a c => a * 10 + (c.toNat - 48)) 0

/-- Hexadecimal digit. -/
def isHexDigitChar (c : Char) : Bool :=
  isAsciiDigit c || (97 ≤ c.toNat && c.toNat ≤ 102) ||
  (65 ≤ c.toNat && c.toNat ≤ 70)

/-- Octal digit. -/
def isOctDigitChar (c : Char) : Bool :=
  48 ≤ c.toNat && c.toNat ≤ 55

/-- Binary digit. -/
def isBinDigitChar (c : Char) : Bool :=
  c.toNat = 48 || c.toNat = 49

/-- Value of one digit in a radix up to 16. -/
def radixDigitVal (c : Char) : Nat :=
  if isAsciiDigit c then c.toNat - 48
  else if 97 ≤ c.toNat then c.toNat - 87
  else c.toNat - 55

/-- Value of a digit list in the given radix. -/
def radixVal (r : Nat) (cs : List Char) : Nat :=
  cs.foldl (fun a c => a * r + radixDigitVal c) 0

/-- Digit predicate for the non-decimal radixes 16, 8 and 2. -/
def isRadixDigit (r : Nat) (c : Char) : Bool :=
  if r = 16 then isHexDigitChar c
  else if r = 8 then isOctDigitChar c
  else isBinDigitChar c

/-- Detects the 0x, 0o and 0b prefixes of a NonDecimalIntegerLiteral and
returns the radix together with the remaining characters. -/
def radixPrefix (cs : List Char) : Option (Nat × List Char) :=
  match cs with
  | c0 :: c1 :: rest =>
    if c0.toNat = 48 then
      if c1.toNat = 120 ∨ c1.toNat = 88 then some (16, rest)
      else if c1.toNat = 111 ∨ c1.toNat = 79 then some (8, rest)
      else if c1.toNat = 98 ∨ c1.toNat = 66 then some (2, rest)
      else none
    else none
  | _ => none

/-- Splits a list at the longest prefix satisfying p. -/
def spanP (p : Char → Bool) : List Char → List Char × List Char
  | [] => ([], [])
  | c :: cs =>
    if p c then
      let r := spanP p cs
      (c :: r.1, r.2)
    else ([], c :: cs)

/-- Parses the SignedInteger of an ExponentPart: optional sign then one
or more decimal digits, nothing left over. -/
def parseSignedInt (cs : List Char) : Option Int :=
  match cs with
  | [] => none
  | c :: rest =>
    if c.toNat = 43 then
      if !rest.isEmpty && rest.all isAsciiDigit then some (decDigitsVal rest)
      else none
    else if c.toNat = 45 then
      if !rest.isEmpty && rest.all isAsciiDigit then
        some (-(decDigitsVal rest : Int))
      else none
    else if cs.all isAsciiDigit then some (decDigitsVal cs)
    else none

/-- Parses an optional ExponentPart occupying the whole remaining input:
empty input means exponent 0, otherwise e or E followed by a
SignedInteger. -/
def parseExponent (cs : List Char) : Option Int :=
  match cs with
  | [] => some 0
  | c :: rest =>
    if c.toNat = 101 || c.toNat = 69 then parseSignedInt rest
    else none

/-- Ten to an integer power, as an exact fraction. -/
def fracPow10 (e : Int) : Frac :=
  if 0 ≤ e then ⟨((10 ^ e.toNat : Nat) : Int), 1⟩
  else ⟨1, 10 ^ (-e).toNat⟩

/-- Parses a StrUnsignedDecimalLiteral other than Infinity: digits with
an optional fraction after a decimal point (at least one digit on some
side) and an optional exponent, consuming the whole input. -/
def parseUnsignedDecimal (cs : List Char) : Option Frac :=
  let p := spanP isAsciiDigit cs
  match p.2 with
  | c :: rest2 =>
    if c.toNat = 46 then
      let q := spanP isAsciiDigit rest2
      if p.1.isEmpty && q.1.isEmpty then none
      else
        match parseExponent q.2 with
        | some e =>
          some (((Frac.ofNat (decDigitsVal p.1)).add
            ⟨(decDigitsVal q.1 : Int), 10 ^ q.1.length⟩).mul (fracPow10 e))
        | none => none
    else if p.1.isEmpty then none
    else
      match parseExponent (c :: rest2) with
      | some e => some ((Frac.ofNat (decDigitsVal p.1)).mul (fracPow10 e))
      | none => none
  | [] =>
    if p.1.isEmpty then none
    else
      match parseExponent [] with
      | some e => some ((Frac.ofNat (decDigitsVal p.1)).mul (fracPow10 e))
      | none => none

/-- Parses a signless StrUnsignedDecimalLiteral body, applying the sign
recorded by the caller; Infinity is recognised here. -/
def jsUnsigned (cs : List Char) (neg : Bool) : JsNum :=
  if cs = "Infinity".data then (if neg then .negInf else .posInf)
  else
    match parseUnsignedDecimal cs with
    | some q => .val (if neg then q.neg else q)
    | none => .nan

/-- Parses a StrDecimalLiteral: optional plus or minus sign then an
unsigned body. -/
def jsDecimal (cs : List Char) : JsNum :=
  match cs with
  | [] => jsUnsigned [] false
  | c :: rest =>
    if c.toNat = 43 then jsUnsigned rest false
    else if c.toNat = 45 then jsUnsigned rest true
    else jsUnsigned (c :: rest) false

/-- Parses a trimmed StringNumericLiteral: empty means 0, a radix prefix
introduces an unsigned non-decimal integer, anything else is a signed
decimal literal. -/
def jsNumberList (cs : List Char) : JsNum :=
  match radixPrefix cs with
  | some (r, rest) =>
    if !rest.isEmpty && rest.all (isRadixDigit r) then .val (Frac.ofNat (radixVal r rest))
    else .nan
  | none =>
    if cs.isEmpty then .val (Frac.ofNat 0)
    else jsDecimal cs

/-- Models the JavaScript Number conversion applied to a string. -/
def jsNumber (s : String) : JsNum :=
  jsNumberList (jsTrim s).data

/-- Models the body of the year field's onInput handler once the guard
has passed (src/src/routes/index.tsx lines 68-91): the first matching
branch sets the custom validity message, the empty string meaning valid.
The FormData lookup of the name entry on line 83 yields the name input's
current raw value, compared with strict equality against Newborn. -/
def validateYear (nameValue yearValue : String) : String :=
  if (jsTrim yearValue).length == 0 then "Field is required"
  else if !matchDigits yearValue || (jsNumber yearValue).isNaN then
    "Field must be a number"
  else if (jsNumber yearValue).ltInt 2000 then
    "Number must be greater or equal than 2000"
  else if nameValue == "Newborn" && (jsNumber yearValue).ltInt 2024 then
    "Newborn can not be born before 2024"
  else ""

/-- Models the body of the name field's onInput handler once the guard
has passed (src/src/routes/index.tsx lines 34-43): empty after trimming
or failing the regex sets the one invalid message, otherwise the message
is cleared. -/
def validateName (nameValue : String) : String :=
  if (jsTrim nameValue).length == 0 || !matchUpperStart nameValue then
    "Field is invalid"
  else ""

/-- State of the rendered form: the was-submitted latch (the
data-was-submitted attribute on the form element), the raw value of each
input, and each input's current custom validation message, the empty
string meaning the input is valid. -/
structure FormState where
  wasSubmitted : Bool
  nameValue : String
  yearValue : String
  nameMsg : String
  yearMsg : String
deriving DecidableEq, Repr

/-- The freshly rendered form: latch unset, both inputs empty and valid. -/
def initialState : FormState :=
  { wasSubmitted := false, nameValue := "", yearValue := "",
    nameMsg := "", yearMsg := "" }

/-- Models dispatching an input event to the year field
(src/src/routes/index.tsx lines 64-92): a no-op before the first submit,
otherwise the year message is recomputed from the current raw values. -/
def onInputYearHandler (s : FormState) : FormState :=
  if !s.wasSubmitted then s
  else { s with yearMsg := validateYear s.nameValue s.yearValue }

/-- Models dispatching an input event to the name field
(src/src/routes/index.tsx lines 30-47): a no-op before the first submit,
otherwise the name message is recomputed and a synthetic input event is
dispatched to the year field. -/
def onInputNameHandler (s : FormState) : FormState :=
  if !s.wasSubmitted then s
  else onInputYearHandler { s with nameMsg := validateName s.nameValue }

/-- The user edits the name field to v, which fires an input event on it. -/
def typeName (s : FormState) (v : String) : FormState :=
  onInputNameHandler { s with nameValue := v }

/-- The user edits the year field to v, which fires an input event on it. -/
def typeYear (s : FormState) (v : String) : FormState :=
  onInputYearHandler { s with yearValue := v }

/-- The record handed to the external sink (console.log) on a successful
submission: the raw name string and the year cast via Number. -/
structure SubmitRecord where
  name : String
  year : JsNum
deriving DecidableEq, Repr

/-- Models the submit handler (src/src/routes/index.tsx lines 10-22):
set the data-was-submitted attribute, dispatch an input event to every
input in document order (name first, then year), abort if the form fails
checkValidity (some input carries a nonempty custom validity message),
otherwise build the record from the FormData raw values with year cast
via Number and hand it to the sink. -/
def onSubmitHandler (s : FormState) : FormState × Option SubmitRecord :=
  let s1 : FormState := { s with wasSubmitted := true }
  let s2 := onInputNameHandler s1
  let s3 := onInputYearHandler s2
  (s3,
    if !(s3.nameMsg == "" && s3.yearMsg == "") then none
    else some { name := s3.nameValue, year := jsNumber s3.yearValue })

/-- Modelled from claim C1's wording of the year rules, to be compared
with the handler embedded from the source: first matching rule wins,
with required, number, minimum 2000 and Newborn minimum 2024 checks in
that order. -/
def specYearMessage (nameValue yearValue : String) : String :=
  if jsTrim yearValue = "" then "Field is required"
  else if matchDigits yearValue = false ∨ (jsNumber yearValue).isNaN = true then
    "Field must be a number"
  else if (jsNumber yearValue).ltInt 2000 = true then
    "Number must be greater or equal than 2000"
  else if nameValue = "Newborn" ∧ (jsNumber yearValue).ltInt 2024 = true then
    "Newborn can not be born before 2024"
  else ""

/-- Modelled from claim C2's wording of the name pattern, the value
starts with an uppercase ASCII letter, to be compared with the regex the
code uses. -/
def specStartsUpper (s : String) : Bool :=
  match s.data with
  | [] => false
  | c :: _ => 65 ≤ c.toNat && c.toNat ≤ 90

lemma string_length_eq_zero_iff (s : String) :
    s.length = 0 ↔ s = "" := by
  obtain ⟨l⟩ := s
  cases l <;> simp [String.length, String.ext_iff]

lemma isJsWhitespaceChar_eq_false_of_digit {c : Char}
    (h : isAsciiDigit c = true) : isJsWhitespaceChar c = false := by
  simp only [isAsciiDigit, Bool.and_eq_true, decide_eq_true_eq] at h
  simp only [isJsWhitespaceChar, Bool.or_eq_false_iff, decide_eq_false_iff_not,
    Bool.and_eq_false_iff, decide_eq_false_iff_not]
  omega

lemma dropWhile_ws_of_all_digits {l : List Char}
    (h : l.all isAsciiDigit = true) :
    l.dropWhile isJsWhitespaceChar = l := by
  cases l with
  | nil => rfl
  | cons c t =>
    simp only [List.all_cons, Bool.and_eq_true] at h
    simp [List.dropWhile_cons, isJsWhitespaceChar_eq_false_of_digit h.1]

lemma jsTrim_of_all_digits {s : String}
    (h : s.data.all isAsciiDigit = true) : jsTrim s = s := by
  obtain ⟨l⟩ := s
  simp only [jsTrim]
  rw [dropWhile_ws_of_all_digits h,
    dropWhile_ws_of_all_digits (by simpa using h), List.reverse_reverse]

lemma spanP_of_all {p : Char → Bool} {l : List Char}
    (h : l.all p = true) : spanP p l = (l, []) := by
  induction l with
  | nil => rfl
  | cons c t ih =>
    simp only [List.all_cons, Bool.and_eq_true] at h
    simp [spanP, h.1, ih h.2]

lemma radixPrefix_of_all_digits {l : List Char}
    (h : l.all isAsciiDigit = true) : radixPrefix l = none := by
  match l with
  | [] => rfl
  | [c] => rfl
  | c0 :: c1 :: rest =>
    simp only [List.all_cons, Bool.and_eq_true] at h
    have h1 := h.2.1
    simp only [isAsciiDigit, Bool.and_eq_true, decide_eq_true_eq] at h1
    have e1 : ¬ (c1.toNat = 120 ∨ c1.toNat = 88) := by omega
    have e2 : ¬ (c1.toNat = 111 ∨ c1.toNat = 79) := by omega
    have e3 : ¬ (c1.toNat = 98 ∨ c1.toNat = 66) := by omega
    simp only [radixPrefix, if_neg e1, if_neg e2, if_neg e3, ite_self]

lemma parseUnsignedDecimal_of_all_digits {l : List Char} (hne : l ≠ [])
    (h : l.all isAsciiDigit = true) :
    parseUnsignedDecimal l = some (Frac.ofNat (decDigitsVal l)) := by
  simp only [parseUnsignedDecimal, spanP_of_all h, parseExponent]
  simp only [List.isEmpty_eq_true, hne, if_false]
  simp [Frac.ofNat, Frac.mul, fracPow10]

lemma jsDecimal_of_all_digits {l : List Char} (hne : l ≠ [])
    (h : l.all isAsciiDigit = true) :
    jsDecimal l = .val (Frac.ofNat (decDigitsVal l)) := by
  match l, hne with
  | c :: t, _ =>
    simp only [List.all_cons, Bool.and_eq_true] at h
    have hc := h.1
    simp only [isAsciiDigit, Bool.and_eq_true, decide_eq_true_eq] at hc
    have h43 : ¬ c.toNat = 43 := by omega
    have h45 : ¬ c.toNat = 45 := by omega
    have hinf : ¬ (c :: t = "Infinity".data) := by
      rw [show "Infinity".data = ['I', 'n', 'f', 'i', 'n', 'i', 't', 'y'] from rfl]
      intro he
      have hcI : c = 'I' := (List.cons.injEq _ _ _ _ ▸ he).1
      subst hcI
      exact absurd hc (by decide)
    rw [jsDecimal, if_neg h43, if_neg h45, jsUnsigned, if_neg hinf,
      parseUnsignedDecimal_of_all_digits (List.cons_ne_nil c t)
        (by simp [List.all_cons, h.1, h.2])]
    simp

lemma jsNumber_of_matchDigits {y : String} (h : matchDigits y = true) :
    jsNumber y = .val (Frac.ofNat (decDigitsVal y.data)) := by
  simp only [matchDigits, Bool.and_eq_true, Bool.not_eq_true',
    List.isEmpty_eq_false] at h
  obtain ⟨hne, hall⟩ := h
  rw [jsNumber, jsTrim_of_all_digits hall, jsNumberList,
    radixPrefix_of_all_digits hall]
  simp only [List.isEmpty_eq_true, hne, if_false]
  exact jsDecimal_of_all_digits hne hall

lemma validateYear_eq_spec (n y : String) :
    validateYear n y = specYearMessage n y := by
  by_cases h1 : jsTrim y = "" <;>
    by_cases h2 : matchDigits y <;>
    by_cases h3 : (jsNumber y).isNaN <;>
    by_cases h4 : (jsNumber y).ltInt 2000 <;>
    by_cases h5 : n = "Newborn" <;>
    by_cases h6 : (jsNumber y).ltInt 2024 <;>
    simp [validateYear, specYearMessage, string_length_eq_zero_iff,
      h1, h2, h3, h4, h5, h6]

lemma onInputYearHandler_submitted {s : FormState} (h : s.wasSubmitted = true) :
    onInputYearHandler s =
      { s with yearMsg := validateYear s.nameValue s.yearValue } := by
  simp [onInputYearHandler, h]

lemma onInputNameHandler_submitted {s : FormState} (h : s.wasSubmitted = true) :
    onInputNameHandler s =
      { s with nameMsg := validateName s.nameValue,
               yearMsg := validateYear s.nameValue s.yearValue } := by
  obtain ⟨w, nv, yv, nm, ym⟩ := s
  subst h
  simp [onInputNameHandler, onInputYearHandler]

lemma onSubmitHandler_eq (s : FormState) :
    onSubmitHandler s =
      ({ s with wasSubmitted := true,
                nameMsg := validateName s.nameValue,
                yearMsg := validateYear s.nameValue s.yearValue },
        if validateName s.nameValue = "" ∧
            validateYear s.nameValue s.yearValue = "" then
          some { name := s.nameValue, year := jsNumber s.yearValue }
        else none) := by
  obtain ⟨w, nv, yv, nm, ym⟩ := s
  by_cases h1 : validateName nv = "" <;>
    by_cases h2 : validateYear nv yv = "" <;>
    simp [onSubmitHandler, onInputNameHandler, onInputYearHandler, h1, h2]

lemma validateYear_valid_matchDigits {n y : String}
    (h : validateYear n y = "") :
    matchDigits y = true ∧ (jsNumber y).isNaN = false := by
  unfold validateYear at h
  split_ifs at h with h1 h2 h3 h4
  · exact absurd h (by decide)
  · exact absurd h (by decide)
  · exact absurd h (by decide)
  · exact absurd h (by decide)
  · simpa [Bool.or_eq_true, Bool.not_eq_true'] using h2

/-- C1: once the form has been submitted at least once, an input event on
the Year field assigns its validation message by the first matching rule
in strict priority order: required when the trimmed value is empty, then
number when the digits regex fails or the numeric parse is NaN, then the
minimum 2000 rule, then the Newborn minimum 2024 rule against the Name
field's raw value, otherwise the empty message.  The rules as the claim
words them are specYearMessage. -/
theorem year_input_priority_rules (s : FormState) (h : s.wasSubmitted = true) :
    (onInputYearHandler s).yearMsg = specYearMessage s.nameValue s.yearValue := by
  rw [onInputYearHandler_submitted h]
  exact validateYear_eq_spec s.nameValue s.yearValue

/-- Witness for C1 at a concrete state: the Newborn rule fires for year
2023 once the form was submitted. -/
theorem year_input_priority_rules_witness :
    (onInputYearHandler ⟨true, "Newborn", "2023", "", ""⟩).yearMsg =
      specYearMessage "Newborn" "2023" ∧
    specYearMessage "Newborn" "2023" = "Newborn can not be born before 2024" :=
  ⟨year_input_priority_rules ⟨true, "Newborn", "2023", "", ""⟩ rfl, by decide⟩

/-- C2 counterexample: the claim says the message is the invalid one
exactly when the trimmed value is empty or the value does not start with
an uppercase ASCII letter.  The value A, U+2028, B starts with an
uppercase ASCII letter and trims to itself, yet the handler emits the
invalid message, because the regex dot cannot match the line separator
U+2028 (which, unlike LF and CR, survives the value sanitisation of a
text input). -/
theorem name_message_spec_pattern_cex :
    (onInputNameHandler ⟨true, "A\u2028B", "2024", "", ""⟩).nameMsg =
      "Field is invalid" ∧
    ¬ (jsTrim "A\u2028B" = "" ∨ specStartsUpper "A\u2028B" = false) := by
  exact ⟨by decide, by decide⟩

/-- C2 (amended): once the form has been submitted at least once, an
input event on the Name field sets the message to the invalid one if and
only if the trimmed value is empty or the value fails the regex, that
is, it does not start with an uppercase ASCII letter or contains a
LineTerminator after the first character; otherwise it sets the empty
message, and both failing cases share the identical message. -/
theorem name_input_invalid_iff (s : FormState) (h : s.wasSubmitted = true) :
    (onInputNameHandler s).nameMsg = validateName s.nameValue ∧
    (validateName s.nameValue = "Field is invalid" ↔
      (jsTrim s.nameValue = "" ∨ matchUpperStart s.nameValue = false)) ∧
    (¬ (jsTrim s.nameValue = "" ∨ matchUpperStart s.nameValue = false) →
      validateName s.nameValue = "") := by
  refine ⟨by rw [onInputNameHandler_submitted h], ?_, ?_⟩ <;>
    by_cases h1 : jsTrim s.nameValue = "" <;>
    by_cases h2 : matchUpperStart s.nameValue <;>
    simp [validateName, string_length_eq_zero_iff, h1, h2]

/-- Witness for C2 at a concrete state: a lowercase name draws the
invalid message once the form was submitted. -/
theorem name_input_invalid_iff_witness :
    (onInputNameHandler ⟨true, "alice", "2024", "", ""⟩).nameMsg =
      validateName "alice" ∧
    (validateName "alice" = "Field is invalid" ↔
      (jsTrim "alice" = "" ∨ matchUpperStart "alice" = false)) ∧
    (¬ (jsTrim "alice" = "" ∨ matchUpperStart "alice" = false) →
      validateName "alice" = "") :=
  name_input_invalid_iff ⟨true, "alice", "2024", "", ""⟩ rfl

/-- C4: while the was-submitted flag is unset, an input event on either
field is a no-op, and an edit of either field never computes or shows a
validation message, whatever the fields contain. -/
theorem no_validation_before_first_submit (s : FormState) (v : String)
    (h : s.wasSubmitted = false) :
    onInputNameHandler s = s ∧ onInputYearHandler s = s ∧
    (typeName s v).nameMsg = s.nameMsg ∧ (typeName s v).yearMsg = s.yearMsg ∧
    (typeYear s v).nameMsg = s.nameMsg ∧ (typeYear s v).yearMsg = s.yearMsg := by
  obtain ⟨w, nv, yv, nm, ym⟩ := s
  subst h
  simp [onInputNameHandler, onInputYearHandler, typeName, typeYear]

/-- Witness for C4 at a concrete state whose fields hold invalid
content: nothing is computed before the first submit. -/
theorem no_validation_before_first_submit_witness :
    onInputNameHandler ⟨false, "alice", "banana", "", ""⟩ =
      ⟨false, "alice", "banana", "", ""⟩ ∧
    onInputYearHandler ⟨false, "alice", "banana", "", ""⟩ =
      ⟨false, "alice", "banana", "", ""⟩ ∧
    (typeName ⟨false, "alice", "banana", "", ""⟩ "x").nameMsg = "" ∧
    (typeName ⟨false, "alice", "banana", "", ""⟩ "x").yearMsg = "" ∧
    (typeYear ⟨false, "alice", "banana", "", ""⟩ "x").nameMsg = "" ∧
    (typeYear ⟨false, "alice", "banana", "", ""⟩ "x").yearMsg = "" :=
  no_validation_before_first_submit ⟨false, "alice", "banana", "", ""⟩ "x" rfl

/-- C5: after the first submit, an input event on the Name field computes
the Name message from the new value and then re-validates the Year field
against that new Name value, while an input event on the Year field
leaves the Name message untouched: the dependency runs only from Name to
Year. -/
theorem dependency_one_directional (s : FormState) (v : String)
    (h : s.wasSubmitted = true) :
    (typeName s v).nameMsg = validateName v ∧
    (typeName s v).yearMsg = validateYear v s.yearValue ∧
    (typeYear s v).nameMsg = s.nameMsg ∧
    (typeYear s v).yearMsg = validateYear s.nameValue v := by
  obtain ⟨w, nv, yv, nm, ym⟩ := s
  subst h
  simp [typeName, typeYear, onInputNameHandler, onInputYearHandler]

/-- Witness for C5 at a concrete state: editing Name to Newborn after a
submit re-validates Year against the new Name value, which fires the
Newborn rule. -/
theorem dependency_one_directional_witness :
    ((typeName ⟨true, "Alice", "2023", "", ""⟩ "Newborn").nameMsg =
      validateName "Newborn" ∧
    (typeName ⟨true, "Alice", "2023", "", ""⟩ "Newborn").yearMsg =
      validateYear "Newborn" "2023" ∧
    (typeYear ⟨true, "Alice", "2023", "", ""⟩ "Newborn").nameMsg = "" ∧
    (typeYear ⟨true, "Alice", "2023", "", ""⟩ "Newborn").yearMsg =
      validateYear "Alice" "Newborn") ∧
    validateYear "Newborn" "2023" = "Newborn can not be born before 2024" :=
  ⟨dependency_one_directional ⟨true, "Alice", "2023", "", ""⟩ "Newborn" rfl,
    by decide⟩

/-- C3: a submit attempt hands a record to the external sink exactly when
every field is valid after re-validation, and the record is built from
the raw string values with year cast via the Number conversion. -/
theorem submit_sink_iff_all_valid (s : FormState) :
    ((onSubmitHandler s).2.isSome ↔
      ((onSubmitHandler s).1.nameMsg = "" ∧ (onSubmitHandler s).1.yearMsg = "")) ∧
    (∀ rec : SubmitRecord, (onSubmitHandler s).2 = some rec →
      rec.name = s.nameValue ∧ rec.year = jsNumber s.yearValue) := by
  rw [onSubmitHandler_eq]
  by_cases h1 : validateName s.nameValue = "" <;>
    by_cases h2 : validateYear s.nameValue s.yearValue = "" <;>
    simp [h1, h2]

/-- Witness for C3 at a concrete state: the all-valid Newborn, 2024 form
submits the record with the year cast to the number 2024. -/
theorem submit_sink_iff_all_valid_witness :
    (onSubmitHandler ⟨false, "Newborn", "2024", "", ""⟩).2 =
      some ⟨"Newborn", JsNum.val ⟨2024, 1⟩⟩ ∧
    (⟨"Newborn", JsNum.val ⟨2024, 1⟩⟩ : SubmitRecord).name = "Newborn" ∧
    (⟨"Newborn", JsNum.val ⟨2024, 1⟩⟩ : SubmitRecord).year = jsNumber "2024" :=
  ⟨by decide,
    (submit_sink_iff_all_valid ⟨false, "Newborn", "2024", "", ""⟩).2
      ⟨"Newborn", JsNum.val ⟨2024, 1⟩⟩ (by decide)⟩

/-- C6: the was-submitted flag is a monotone latch: unset in the initial
state, set to true by every submit attempt, and left unchanged by every
input event, so no operation of the component resets it. -/
theorem was_submitted_monotone_latch (s : FormState) (v : String) :
    initialState.wasSubmitted = false ∧
    (onSubmitHandler s).1.wasSubmitted = true ∧
    (onInputNameHandler s).wasSubmitted = s.wasSubmitted ∧
    (onInputYearHandler s).wasSubmitted = s.wasSubmitted ∧
    (typeName s v).wasSubmitted = s.wasSubmitted ∧
    (typeYear s v).wasSubmitted = s.wasSubmitted := by
  refine ⟨rfl, by rw [onSubmitHandler_eq], ?_, ?_, ?_, ?_⟩ <;>
    obtain ⟨w, nv, yv, nm, ym⟩ := s <;>
    cases w <;>
    simp [onInputNameHandler, onInputYearHandler, typeName, typeYear]

/-- C7: no input reaches an unguarded parse: a Year value matching the
digits regex always parses to the finite decimal value of its digits and
never to NaN, so the isNaN half of the number rule is unreachable, and a
submitted record exists only when the Year validation passed, its year
being that well-defined number. -/
theorem guarded_parse_never_nan (s : FormState) (rec : SubmitRecord)
    (h : matchDigits s.yearValue = true) :
    jsNumber s.yearValue = JsNum.val (Frac.ofNat (decDigitsVal s.yearValue.data)) ∧
    (jsNumber s.yearValue).isNaN = false ∧
    ((onSubmitHandler s).2 = some rec →
      (onSubmitHandler s).1.yearMsg = "" ∧
      rec.year = JsNum.val (Frac.ofNat (decDigitsVal s.yearValue.data))) := by
  refine ⟨jsNumber_of_matchDigits h, by rw [jsNumber_of_matchDigits h]; rfl, ?_⟩
  intro hsub
  rw [onSubmitHandler_eq] at hsub ⊢
  by_cases h1 : validateName s.nameValue = "" <;>
    by_cases h2 : validateYear s.nameValue s.yearValue = "" <;>
    simp [h1, h2] at hsub ⊢
  rw [← hsub]
  exact jsNumber_of_matchDigits h

/-- Witness for C7 at a concrete state: year 2024 parses to the finite
number 2024 and the submitted record carries it. -/
theorem guarded_parse_never_nan_witness :
    jsNumber "2024" = JsNum.val (Frac.ofNat (decDigitsVal "2024".data)) ∧
    (jsNumber "2024").isNaN = false ∧
    ((onSubmitHandler ⟨false, "Newborn", "2024", "", ""⟩).2 =
        some ⟨"Newborn", JsNum.val ⟨2024, 1⟩⟩ →
      (onSubmitHandler ⟨false, "Newborn", "2024", "", ""⟩).1.yearMsg = "" ∧
      (⟨"Newborn", JsNum.val ⟨2024, 1⟩⟩ : SubmitRecord).year =
        JsNum.val (Frac.ofNat (decDigitsVal "2024".data))) :=
  guarded_parse_never_nan ⟨false, "Newborn", "2024", "", ""⟩
    ⟨"Newborn", JsNum.val ⟨2024, 1⟩⟩ (by decide)

/-- C8: the Year validation result does not depend on the Name value
beyond whether it equals exactly Newborn: replacing the Name value by
any other value that agrees on being Newborn leaves both the computed
Year message and the Year handler's output message unchanged, so a Name
failing its own pattern cannot change the Year outcome. -/
theorem year_independent_of_name_validity (s : FormState) (n2 : String)
    (h : s.nameValue = "Newborn" ↔ n2 = "Newborn") :
    validateYear n2 s.yearValue = validateYear s.nameValue s.yearValue ∧
    (onInputYearHandler { s with nameValue := n2 }).yearMsg =
      (onInputYearHandler s).yearMsg := by
  have hb : (n2 == "Newborn") = (s.nameValue == "Newborn") := by
    by_cases h1 : n2 = "Newborn" <;> by_cases h2 : s.nameValue = "Newborn" <;>
      simp_all
  have hv : validateYear n2 s.yearValue = validateYear s.nameValue s.yearValue := by
    unfold validateYear
    rw [hb]
  refine ⟨hv, ?_⟩
  obtain ⟨w, nv, yv, nm, ym⟩ := s
  cases w
  · simp [onInputYearHandler]
  · simpa [onInputYearHandler] using hv

/-- Witness for C8 at a concrete state: the lowercase name alice and the
name Bob, neither of them Newborn, yield the same Year message. -/
theorem year_independent_of_name_validity_witness :
    validateYear "Bob" "2005" = validateYear "alice" "2005" ∧
    (onInputYearHandler ⟨true, "Bob", "2005", "", ""⟩).yearMsg =
      (onInputYearHandler ⟨true, "alice", "2005", "", ""⟩).yearMsg :=
  year_independent_of_name_validity ⟨true, "alice", "2005", "", ""⟩ "Bob"
    (by decide)

/-- C9: the digit check is strictly stricter than the JavaScript numeric
parse: any Year value whose trimmed form is nonempty but which contains
a character outside the ASCII digits draws the number message from the
validator, and the handler shows it once the form was submitted. -/
theorem nondigit_year_reports_number_message (s : FormState) (c : Char)
    (hs : s.wasSubmitted = true)
    (h1 : jsTrim s.yearValue ≠ "") (h2 : c ∈ s.yearValue.data)
    (h3 : isAsciiDigit c = false) :
    validateYear s.nameValue s.yearValue = "Field must be a number" ∧
    (onInputYearHandler s).yearMsg = "Field must be a number" := by
  have hmd : matchDigits s.yearValue = false := by
    cases hm : matchDigits s.yearValue
    · rfl
    · simp only [matchDigits, Bool.and_eq_true] at hm
      have := List.all_eq_true.mp hm.2 c h2
      rw [h3] at this
      exact absurd this (by decide)
  have hv : validateYear s.nameValue s.yearValue = "Field must be a number" := by
    unfold validateYear
    rw [if_neg (by simpa [string_length_eq_zero_iff] using h1), if_pos (by simp [hmd])]
  exact ⟨hv, by rw [onInputYearHandler_submitted hs]; exact hv⟩

/-- Witness for C9 at a concrete state: a year with a leading space
fails the digit check even though the numeric parse would accept it. -/
theorem nondigit_year_reports_number_message_witness :
    (validateYear "Alice" " 2005" = "Field must be a number" ∧
    (onInputYearHandler ⟨true, "Alice", " 2005", "", ""⟩).yearMsg =
      "Field must be a number") ∧
    jsNumber " 2005" = JsNum.val ⟨2005, 1⟩ :=
  ⟨nondigit_year_reports_number_message ⟨true, "Alice", " 2005", "", ""⟩ ' '
      rfl (by decide) (by decide) (by decide), by decide⟩

/-- C10: field validation is idempotent: running either input handler
twice in succession equals running it once, the extra Year validation a
Name input performs makes a following Year input redundant, and the
submit attempt's state, in which Year was validated twice, equals the
state after a single pass over the fields with the latch set. -/
theorem validation_idempotent (s : FormState) :
    onInputNameHandler (onInputNameHandler s) = onInputNameHandler s ∧
    onInputYearHandler (onInputYearHandler s) = onInputYearHandler s ∧
    onInputYearHandler (onInputNameHandler s) = onInputNameHandler s ∧
    (onSubmitHandler s).1 = onInputNameHandler { s with wasSubmitted := true } := by
  obtain ⟨w, nv, yv, nm, ym⟩ := s
  cases w <;>
    simp [onInputNameHandler, onInputYearHandler, onSubmitHandler]
